import Mathlib

/-!
Shallow embedding of src/bot.py (grompere/chatbot_with_tools) and proofs about it.

Modelling conventions:
- A langchain message is `Msg`: `user` (HumanMessage), `assistant` (AIMessage,
  with its `tool_calls` list), `system` (SystemMessage) and `tool` (ToolMessage,
  with `name` and `tool_call_id`).
- Python attribute access `message.tool_calls` succeeds only on AIMessage; on the
  other message classes it raises AttributeError.  `Msg.toolCallsAttr` returns
  `none` exactly in the AttributeError cases.
- Fallible Python code (raised exceptions) is embedded with `Except`.
- External network collaborators (the chat model, the search provider, the
  summarizer model) are opaque oracles passed in as function arguments; the chat
  model returns one AIMessage by its interface type, captured by `AIResponse`.
-/

namespace ChatbotWithTools

/-- One entry of an AIMessage's `tool_calls` list: `{"name": ..., "args": ...,
"id": ...}`.  The argument payload is kept opaque as a single string. -/
structure ToolCall where
  name : String
  args : String
  id : String
deriving DecidableEq, Repr

/-- The langchain message classes used by src/bot.py. -/
inductive Msg where
  | user (content : String)
  | assistant (content : String) (tool_calls : List ToolCall)
  | system (content : String)
  | tool (content : String) (name : String) (tool_call_id : String)
deriving DecidableEq, Repr

/-- Python attribute lookup `message.tool_calls`: only AIMessage has the
attribute; `none` models the AttributeError on every other message class. -/
def Msg.toolCallsAttr : Msg → Option (List ToolCall)
  | .assistant _ tcs => some tcs
  | _ => none

/-- The graph state of src/bot.py:25-29: a dict with a single key `messages`. -/
structure State where
  messages : List Msg
deriving DecidableEq, Repr

/-- The `add_messages` reducer declared on `State.messages` (src/bot.py:29).
Per the source's own comment (src/bot.py:26-28) it appends the update to the
existing list rather than overwriting it. -/
def add_messages (left right : List Msg) : List Msg := left ++ right

/-- A registered tool: a name and its `invoke` entry point.  `invoke` is total
(String valued) because the one registered tool, the Google search tool,
catches every exception internally (src/bot.py:91-112). -/
structure Tool where
  name : String
  invoke : String → String

/-- Errors raised by `BasicToolNode.__call__` (src/bot.py:37-54):
`noMessage` is the ValueError of line 41, `missingToolCallsAttr` is the
AttributeError of `message.tool_calls` on a non-AIMessage (line 43), and
`unknownTool` is the KeyError of the registry lookup (line 44). -/
inductive DispatchError where
  | noMessage
  | missingToolCallsAttr
  | unknownTool (name : String)
deriving DecidableEq, Repr

/-- The registry `self.tools_by_name = {tool.name: tool for tool in tools}`
(src/bot.py:35): dict comprehension, so a later tool with the same name
overwrites an earlier one. -/
def toolsByName (tools : List Tool) (name : String) : Option Tool :=
  tools.foldl (fun acc t => if t.name = name then some t else acc) none

/-- The loop body of `BasicToolNode.__call__` (src/bot.py:42-53): for each tool
call, look the name up in the registry (KeyError when absent, surfacing the
first missing name), invoke the tool on its args, and collect a ToolMessage
carrying the result, name and tool_call_id. -/
def runCalls (reg : String → Option Tool) : List ToolCall → Except DispatchError (List Msg)
  | [] => Except.ok []
  | tc :: rest =>
    match reg tc.name with
    | none => Except.error (DispatchError.unknownTool tc.name)
    | some t =>
      match runCalls reg rest with
      | Except.error e => Except.error e
      | Except.ok outs => Except.ok (Msg.tool (t.invoke tc.args) tc.name tc.id :: outs)

/-- `BasicToolNode.__call__` (src/bot.py:37-54): take the last message of the
input state (ValueError when the list is empty or absent), read its
`tool_calls` attribute, and run each requested tool, returning the batch of
ToolMessages. -/
def BasicToolNode.call (tools : List Tool) (inputs : State) : Except DispatchError (List Msg) :=
  match inputs.messages.getLast? with
  | none => Except.error DispatchError.noMessage
  | some message =>
    match message.toolCallsAttr with
    | none => Except.error DispatchError.missingToolCallsAttr
    | some tool_calls => runCalls (toolsByName tools) tool_calls

/-- The ValueError raised by `route_tools` (src/bot.py:68) when the state
carries no messages. -/
inductive RouteError where
  | noMessages
deriving DecidableEq, Repr

/-- The two routing outcomes of `route_tools`: the string "tools" or the END
sentinel (src/bot.py:69-71). -/
inductive Route where
  | tools
  | terminal
deriving DecidableEq, Repr

/-- `route_tools` (src/bot.py:56-71) on a dict-shaped state: raise ValueError
when `messages` is empty, else inspect the last message; route to "tools" iff
it has a `tool_calls` attribute with a list of positive length, else END.
Note a message without the attribute (`hasattr` false) routes to END. -/
def route_tools (state : State) : Except RouteError Route :=
  match state.messages.getLast? with
  | none => Except.error RouteError.noMessages
  | some ai_message =>
    match ai_message.toolCallsAttr with
    | some tcs => if 0 < tcs.length then Except.ok Route.tools else Except.ok Route.terminal
    | none => Except.ok Route.terminal

/-- The f-string summary prompt of `GoogleSearchTool._run` (src/bot.py:97-104),
as a function of the interpolated query and raw results. -/
def summaryPrompt (query raw_results : String) : String :=
  "Please summarize the following Google search results for the query \"" ++ query ++
  "\". \nRemove redundant information, irrelevant details, and repetitive content. \n" ++
  "Provide a clear, concise answer that directly addresses the user's question and " ++
  "doesn't include any other information.\n\nSearch Results:\n" ++ raw_results ++
  "\n\nSummary:"

/-- `GoogleSearchTool._run` (src/bot.py:91-112).  The search provider call
`self.search_wrapper.run(query)` and the summarizer call
`self.summarizer_llm.invoke(...)` are oracles returning `Except String String`
(`Except.error e` embeds a raised exception with message `str(e)`).  The
enclosing try/except converts either exception into the string
"Error searching Google: " followed by the exception text; the function
always returns a plain string and never propagates an exception. -/
def GoogleSearchTool.run (search : String → Except String String)
    (summarizer : String → Except String String) (query : String) : String :=
  match search query with
  | Except.error e => "Error searching Google: " ++ e
  | Except.ok raw_results =>
    match summarizer (summaryPrompt query raw_results) with
    | Except.error e => "Error searching Google: " ++ e
    | Except.ok summary_response => summary_response

/-- `GoogleSearchTool._arun` (src/bot.py:114-115): delegates to `_run`. -/
def GoogleSearchTool.arun (search : String → Except String String)
    (summarizer : String → Except String String) (query : String) : String :=
  GoogleSearchTool.run search summarizer query

/-- The google_search registry entry built in `create_chatbot_with_memory`
(src/bot.py:140-141): name "google_search", invoke = `_run` on the (opaque)
query payload. -/
def googleSearchTool (search summarizer : String → Except String String) : Tool :=
  { name := "google_search"
    invoke := fun query => GoogleSearchTool.run search summarizer query }

/-- The single AIMessage returned by `llm.invoke` (its interface type):
content plus a (possibly empty) `tool_calls` list. -/
structure AIResponse where
  content : String
  tool_calls : List ToolCall

/-- The system message content of the `chatbot` node (src/bot.py:161-163). -/
def systemMessageContent : String :=
  "You are a helpful AI assistant. You have memory of the entire conversation history. \n" ++
  "        Use this context to provide more relevant and personalized responses. \n" ++
  "        Be conversational and engaging while maintaining helpfulness."

/-- The `chatbot` node (src/bot.py:155-172): prepend the fixed system message
to the conversation, call the model once on the combined list, and return the
update `{"messages": [response]}` — a singleton list holding the one new
AIMessage.  The system message is only part of the model input, not of the
returned update. -/
def chatbot (llm : List Msg → AIResponse) (state : State) : List Msg :=
  let messages := state.messages
  let system_message := Msg.system systemMessageContent
  let full_messages := system_message :: messages
  let response := llm full_messages
  [Msg.assistant response.content response.tool_calls]

/-- The nodes of the compiled graph of `create_chatbot_with_memory`
(src/bot.py:174-201), plus the END sentinel as `terminal`. -/
inductive Node where
  | chatbot
  | tools
  | terminal
deriving DecidableEq, Repr

/-- One step of the compiled graph (src/bot.py:174-201).  From the chatbot
node: run the `chatbot` node, fold its update into the state via
`add_messages`, and follow the conditional edge computed by `route_tools`
({"tools": "tools", END: END}, src/bot.py:185-189).  From the tools node: run
`BasicToolNode.__call__`, fold its update in, and follow the fixed edge back
to the chatbot (src/bot.py:192).  `none` embeds both a raised exception and
the absence of any further step (END).  The additional unconditional edge
from the chatbot to END (src/bot.py:198) activates no executable node, so it
contributes no successor beyond what the conditional edge already selects:
the run still continues through the tools node whenever the router selected
it, and halts only when no node remains activated. -/
def graphStep (llm : List Msg → AIResponse) (tools : List Tool) :
    Node → State → Option (Node × State)
  | Node.chatbot, s =>
    let outs := chatbot llm s
    let s2 : State := ⟨add_messages s.messages outs⟩
    match route_tools s2 with
    | Except.ok Route.tools => some (Node.tools, s2)
    | Except.ok Route.terminal => some (Node.terminal, s2)
    | Except.error _ => none
  | Node.tools, s =>
    match BasicToolNode.call tools s with
    | Except.ok outs => some (Node.chatbot, ⟨add_messages s.messages outs⟩)
    | Except.error _ => none
  | Node.terminal, _ => none

/-- The observable action taken by one iteration of the interactive loop
(src/bot.py:222-262) on one input line. -/
inductive LoopAction where
  | quit
  | cleared
  | displayedHistory (n : Nat)
  | ignored
  | dispatched
deriving DecidableEq, Repr

/-- Python `str.strip()`: drop leading and trailing whitespace (modelled on
the character list so that it reduces structurally). -/
def pyStrip (s : String) : String :=
  String.mk (((s.data.dropWhile Char.isWhitespace).reverse.dropWhile Char.isWhitespace).reverse)

/-- Python `str.lower()` (the reserved commands are ASCII, so per-character
ASCII lowercasing is the relevant behavior). -/
def pyLower (s : String) : String :=
  String.mk (s.data.map Char.toLower)

/-- One iteration of the `while True` loop of `run_interactive_chatbot`
(src/bot.py:222-262): strip the input, recognize the quit aliases
('quit'/'exit'/'q', lowercased), 'clear' (reset the state to empty),
'history' (display the current turns), skip an empty line, and otherwise
append a HumanMessage and stream the graph, appending its responses
(the streaming part is the opaque `respond` collaborator). -/
def run_interactive_step (respond : List Msg → List Msg) (conversation : List Msg)
    (raw : String) : LoopAction × List Msg :=
  let user_input := pyStrip raw
  if pyLower user_input = "quit" ∨ pyLower user_input = "exit" ∨ pyLower user_input = "q" then
    (LoopAction.quit, conversation)
  else if pyLower user_input = "clear" then
    (LoopAction.cleared, [])
  else if pyLower user_input = "history" then
    (LoopAction.displayedHistory conversation.length, conversation)
  else if user_input = "" then
    (LoopAction.ignored, conversation)
  else
    let withUser := conversation ++ [Msg.user user_input]
    (LoopAction.dispatched, withUser ++ respond withUser)

/-! ### Helper lemmas about the dispatch loop -/

/-- When every requested name is registered, the dispatch loop succeeds and
pairs each request with a ToolMessage built from its registered tool. -/
theorem runCalls_ok_of_registered (reg : String → Option Tool) (calls : List ToolCall)
    (hreg : ∀ tc ∈ calls, (reg tc.name).isSome) :
    ∃ outs : List Msg, runCalls reg calls = Except.ok outs ∧
      List.Forall₂ (fun (tc : ToolCall) (out : Msg) => ∃ t : Tool, reg tc.name = some t ∧
        out = Msg.tool (t.invoke tc.args) tc.name tc.id) calls outs := by
  induction calls with
  | nil => exact ⟨[], rfl, List.Forall₂.nil⟩
  | cons tc rest ih =>
    obtain ⟨t, ht⟩ := Option.isSome_iff_exists.mp (hreg tc (List.mem_cons_self tc rest))
    obtain ⟨outs, houts, hfa⟩ := ih (fun x hx => hreg x (List.mem_cons_of_mem tc hx))
    refine ⟨Msg.tool (t.invoke tc.args) tc.name tc.id :: outs, ?_, ?_⟩
    · simp [runCalls, ht, houts]
    · exact List.Forall₂.cons ⟨t, ht, rfl⟩ hfa

/-- When some requested name is unregistered, the dispatch loop raises the
KeyError for the first such name and produces no output list at all. -/
theorem runCalls_error_of_unregistered (reg : String → Option Tool) (calls : List ToolCall)
    (h : ∃ tc ∈ calls, reg tc.name = none) :
    ∃ nm, runCalls reg calls = Except.error (DispatchError.unknownTool nm) ∧ reg nm = none := by
  induction calls with
  | nil => simp at h
  | cons tc rest ih =>
    by_cases hh : reg tc.name = none
    · exact ⟨tc.name, by simp [runCalls, hh], hh⟩
    · obtain ⟨t, ht⟩ := Option.ne_none_iff_exists.mp hh
      have hrest : ∃ x ∈ rest, reg x.name = none := by
        obtain ⟨x, hx, hxn⟩ := h
        rcases List.mem_cons.mp hx with h1 | h2
        · subst h1; exact absurd hxn hh
        · exact ⟨x, h2, hxn⟩
      obtain ⟨nm, hnm, hr⟩ := ih hrest
      exact ⟨nm, by simp [runCalls, ht.symm, hnm], hr⟩

/-- A demonstration tool used by concrete witnesses: echoes its arguments. -/
def echoTool : Tool := { name := "echo", invoke := fun args => args }

/-! ### Claim theorems -/

/-- C1: invoking `BasicToolNode.__call__` on a state ending in an assistant
message whose N tool calls all name registered tools returns exactly N
ToolMessages, paired in order with the requests, each carrying its request's
name and tool_call_id. -/
theorem C1_dispatch_one_result_per_request (tools : List Tool) (pre : List Msg)
    (content : String) (calls : List ToolCall)
    (hreg : ∀ tc ∈ calls, (toolsByName tools tc.name).isSome) :
    ∃ outs : List Msg,
      BasicToolNode.call tools ⟨pre ++ [Msg.assistant content calls]⟩ = Except.ok outs ∧
      outs.length = calls.length ∧
      List.Forall₂ (fun (tc : ToolCall) (out : Msg) => ∃ t : Tool,
        toolsByName tools tc.name = some t ∧
        out = Msg.tool (t.invoke tc.args) tc.name tc.id) calls outs := by
  obtain ⟨outs, h1, h2⟩ := runCalls_ok_of_registered (toolsByName tools) calls hreg
  refine ⟨outs, ?_, h2.length_eq.symm, h2⟩
  simp [BasicToolNode.call, Msg.toolCallsAttr, h1]

/-- C1 witness at a concrete registry and a single concrete request. -/
theorem C1_dispatch_one_result_per_request_witness :
    ∃ outs : List Msg,
      BasicToolNode.call [echoTool]
          ⟨[] ++ [Msg.assistant "" [⟨"echo", "x", "id1"⟩]]⟩ = Except.ok outs ∧
      outs.length = ([⟨"echo", "x", "id1"⟩] : List ToolCall).length ∧
      List.Forall₂ (fun (tc : ToolCall) (out : Msg) => ∃ t : Tool,
        toolsByName [echoTool] tc.name = some t ∧
        out = Msg.tool (t.invoke tc.args) tc.name tc.id)
        [⟨"echo", "x", "id1"⟩] outs :=
  C1_dispatch_one_result_per_request [echoTool] [] "" [⟨"echo", "x", "id1"⟩] (by decide)

/-- C4: when some tool call in the batch names a tool absent from the
registry, `BasicToolNode.__call__` fails with the unknown-tool error (the
KeyError of the registry lookup), the offending name is indeed unregistered,
and no output batch is returned at all — in particular no partial results are
appended. -/
theorem C4_unknown_tool_fails (tools : List Tool) (pre : List Msg)
    (content : String) (calls : List ToolCall)
    (h : ∃ tc ∈ calls, toolsByName tools tc.name = none) :
    ∃ nm, BasicToolNode.call tools ⟨pre ++ [Msg.assistant content calls]⟩
        = Except.error (DispatchError.unknownTool nm) ∧
      toolsByName tools nm = none ∧
      ∀ outs : List Msg,
        BasicToolNode.call tools ⟨pre ++ [Msg.assistant content calls]⟩ ≠ Except.ok outs := by
  obtain ⟨nm, h1, h2⟩ := runCalls_error_of_unregistered (toolsByName tools) calls h
  have hcall : BasicToolNode.call tools ⟨pre ++ [Msg.assistant content calls]⟩
      = Except.error (DispatchError.unknownTool nm) := by
    simp [BasicToolNode.call, Msg.toolCallsAttr, h1]
  exact ⟨nm, hcall, h2, fun outs hko => by rw [hcall] at hko; cases hko⟩

/-- C4 witness: dispatching a request for the unregistered name "ghost"
against the empty registry. -/
theorem C4_unknown_tool_fails_witness :
    ∃ nm, BasicToolNode.call [] ⟨[] ++ [Msg.assistant "" [⟨"ghost", "x", "id1"⟩]]⟩
        = Except.error (DispatchError.unknownTool nm) ∧
      toolsByName [] nm = none ∧
      ∀ outs : List Msg,
        BasicToolNode.call [] ⟨[] ++ [Msg.assistant "" [⟨"ghost", "x", "id1"⟩]]⟩
          ≠ Except.ok outs :=
  C4_unknown_tool_fails [] [] "" [⟨"ghost", "x", "id1"⟩]
    ⟨⟨"ghost", "x", "id1"⟩, by simp, rfl⟩

/-- C3: if the search-provider call fails, or it succeeds and the summarizer
call fails, `GoogleSearchTool._run` returns the non-empty string
"Error searching Google: " followed by the exception text (it is a total
String-valued function, so no exception propagates), and dispatching any
batch of google_search requests with this tool registered still returns one
result per request. -/
theorem C3_search_tool_absorbs_exceptions
    (search summarizer : String → Except String String) (query e : String)
    (h : search query = Except.error e ∨
      ∃ raw_results, search query = Except.ok raw_results ∧
        summarizer (summaryPrompt query raw_results) = Except.error e) :
    GoogleSearchTool.run search summarizer query = "Error searching Google: " ++ e ∧
    0 < (GoogleSearchTool.run search summarizer query).length ∧
    ∀ (pre : List Msg) (content : String) (calls : List ToolCall),
      (∀ tc ∈ calls, tc.name = "google_search") →
      ∃ outs : List Msg,
        BasicToolNode.call [googleSearchTool search summarizer]
          ⟨pre ++ [Msg.assistant content calls]⟩ = Except.ok outs ∧
        outs.length = calls.length := by
  have hrun : GoogleSearchTool.run search summarizer query
      = "Error searching Google: " ++ e := by
    rcases h with h1 | ⟨raw_results, h1, h2⟩
    · simp [GoogleSearchTool.run, h1]
    · simp [GoogleSearchTool.run, h1, h2]
  refine ⟨hrun, ?_, ?_⟩
  · rw [hrun, String.length_append]
    have h24 : "Error searching Google: ".length = 24 := rfl
    omega
  · intro pre content calls hnames
    have hreg : ∀ tc ∈ calls,
        (toolsByName [googleSearchTool search summarizer] tc.name).isSome := by
      intro tc htc
      simp [toolsByName, googleSearchTool, hnames tc htc]
    obtain ⟨outs, h1, h2⟩ :=
      runCalls_ok_of_registered (toolsByName [googleSearchTool search summarizer]) calls hreg
    exact ⟨outs, by simp [BasicToolNode.call, Msg.toolCallsAttr, h1], h2.length_eq.symm⟩

/-- C3 witness: a search oracle that raises "boom" yields the error string. -/
theorem C3_search_tool_absorbs_exceptions_witness :
    GoogleSearchTool.run (fun _ => Except.error "boom") (fun _ => Except.ok "s") "x"
      = "Error searching Google: " ++ "boom" :=
  (C3_search_tool_absorbs_exceptions (fun _ => Except.error "boom")
    (fun _ => Except.ok "s") "x" "boom" (Or.inl rfl)).1

/-- C5: one run of the `chatbot` node returns exactly one message, and it is
an assistant (AI) message, for every conversation state and every model
oracle. -/
theorem C5_decision_step_exactly_one_assistant (llm : List Msg → AIResponse) (s : State) :
    ∃ content tool_calls, chatbot llm s = [Msg.assistant content tool_calls] ∧
      (chatbot llm s).length = 1 :=
  ⟨_, _, rfl, rfl⟩

/-- C10: `GoogleSearchTool._arun` returns exactly what `_run` returns, for
every query and every pair of oracles. -/
theorem C10_arun_equals_run (search summarizer : String → Except String String)
    (query : String) :
    GoogleSearchTool.arun search summarizer query
      = GoogleSearchTool.run search summarizer query := rfl

/-- C2 counterexample: on a state whose last message is a user (Human)
message — not an assistant message — `route_tools` returns the terminal route
and raises no error, refuting the claim that it fails whenever the last Turn
is not an assistant Turn (the `hasattr` guard at src/bot.py:69 makes a
message without the `tool_calls` attribute route to END instead). -/
theorem C2_route_counterexample :
    route_tools ⟨[Msg.user "hi"]⟩ = Except.ok Route.terminal ∧
    ¬ ∃ e, route_tools ⟨[Msg.user "hi"]⟩ = Except.error e := by
  refine ⟨rfl, ?_⟩
  rintro ⟨e, he⟩
  rw [show route_tools ⟨[Msg.user "hi"]⟩ = Except.ok Route.terminal from rfl] at he
  cases he

/-- C2 (amended): `route_tools` is a pure function of the most recent message
only; it fails exactly when the state is empty; and on a non-empty state it
routes to "tools" precisely when the last message carries a `tool_calls`
attribute holding a non-empty list, returning the terminal route otherwise —
including when the last message is not an assistant message. -/
theorem C2_route_amended (s : State) :
    (∀ s2 : State, s.messages.getLast? = s2.messages.getLast? →
      route_tools s = route_tools s2) ∧
    (s.messages = [] → route_tools s = Except.error RouteError.noMessages) ∧
    (∀ m, s.messages.getLast? = some m →
      route_tools s = if 0 < (m.toolCallsAttr.getD []).length
        then Except.ok Route.tools else Except.ok Route.terminal) := by
  refine ⟨?_, ?_, ?_⟩
  · intro s2 h
    unfold route_tools
    rw [h]
  · intro h
    unfold route_tools
    rw [h]
    rfl
  · intro m hm
    unfold route_tools
    rw [hm]
    cases m <;> simp [Msg.toolCallsAttr]

/-- C2 witness: the amended theorem applied to the empty state. -/
theorem C2_route_amended_witness :
    route_tools ⟨[]⟩ = Except.error RouteError.noMessages :=
  (C2_route_amended ⟨[]⟩).2.1 rfl

/-- C6: in the step relation of the compiled graph, the chatbot node always
steps to the tools node when the assistant message it emitted has a non-empty
tool-call list and directly to the terminal state when that list is empty
(never to terminal with pending tool calls); the tools node always steps back
to the chatbot node; and the terminal state has no successor. -/
theorem C6_control_flow (llm : List Msg → AIResponse) (tools : List Tool) (s : State) :
    (∃ content tool_calls s2,
        chatbot llm s = [Msg.assistant content tool_calls] ∧
        s2.messages = s.messages ++ [Msg.assistant content tool_calls] ∧
        graphStep llm tools Node.chatbot s =
          some (if 0 < tool_calls.length then Node.tools else Node.terminal, s2)) ∧
    (∀ n2 s2, graphStep llm tools Node.tools s = some (n2, s2) → n2 = Node.chatbot) ∧
    graphStep llm tools Node.terminal s = none := by
  refine ⟨?_, ?_, rfl⟩
  · refine ⟨_, _, ⟨s.messages ++ chatbot llm s⟩, rfl, rfl, ?_⟩
    have hroute : route_tools ⟨s.messages ++ chatbot llm s⟩
        = if 0 < ((llm (Msg.system systemMessageContent :: s.messages)).tool_calls).length
          then Except.ok Route.tools else Except.ok Route.terminal := by
      unfold route_tools chatbot
      rw [List.getLast?_concat]
      rfl
    simp only [graphStep, add_messages, hroute]
    by_cases hc : 0 < ((llm (Msg.system systemMessageContent :: s.messages)).tool_calls).length
    · simp [hc, chatbot]
    · simp [hc, chatbot]
  · intro n2 s2 h
    simp only [graphStep] at h
    split at h
    · cases h
      rfl
    · cases h

/-- C6 witness: the terminal state has no successor under a concrete model
oracle and registry. -/
theorem C6_control_flow_witness :
    graphStep (fun _ => ⟨"hi", []⟩) [] Node.terminal ⟨[]⟩ = none :=
  (C6_control_flow (fun _ => ⟨"hi", []⟩) [] ⟨[]⟩).2.2

/-- C7: the message log is append-only — every step of the compiled graph
(whether the chatbot node or the tools node fired) produces a state whose
message list is the previous list with new messages appended at the end; no
earlier message is removed, reordered or altered. -/
theorem C7_append_only (llm : List Msg → AIResponse) (tools : List Tool)
    (n n2 : Node) (s s2 : State) (h : graphStep llm tools n s = some (n2, s2)) :
    ∃ new, s2.messages = s.messages ++ new := by
  cases n with
  | chatbot =>
    simp only [graphStep, add_messages] at h
    split at h
    · cases h
      exact ⟨chatbot llm s, rfl⟩
    · cases h
      exact ⟨chatbot llm s, rfl⟩
    · cases h
  | tools =>
    simp only [graphStep, add_messages] at h
    split at h
    · cases h
      exact ⟨_, rfl⟩
    · cases h
  | terminal => cases h

/-- C7 witness: one chatbot step from the empty state appends its output. -/
theorem C7_append_only_witness :
    ∃ new, (State.mk [Msg.assistant "hi" []]).messages = (State.mk []).messages ++ new :=
  C7_append_only (fun _ => ⟨"hi", []⟩) [] Node.chatbot Node.terminal ⟨[]⟩
    ⟨[Msg.assistant "hi" []]⟩ (by decide)

/-- C8: the `chatbot` node calls the model on the conversation prefixed by the
fixed system (instruction) message, yet its returned update is the single new
assistant message only — no system message is in it — so the state produced
by the step is exactly the prior messages followed by that one assistant
message (the state has no other field). -/
theorem C8_system_message_not_persisted (llm : List Msg → AIResponse) (s : State) :
    chatbot llm s =
      [Msg.assistant (llm (Msg.system systemMessageContent :: s.messages)).content
        (llm (Msg.system systemMessageContent :: s.messages)).tool_calls] ∧
    (∀ m ∈ chatbot llm s, ∀ c, m ≠ Msg.system c) ∧
    (∀ (tools : List Tool) (n2 : Node) (s2 : State),
      graphStep llm tools Node.chatbot s = some (n2, s2) →
      s2.messages = s.messages ++ chatbot llm s) := by
  refine ⟨rfl, ?_, ?_⟩
  · intro m hm c
    simp only [chatbot, List.mem_singleton] at hm
    subst hm
    intro hcontra
    cases hcontra
  · intro tools n2 s2 h
    simp only [graphStep, add_messages] at h
    split at h
    · cases h
      rfl
    · cases h
      rfl
    · cases h

/-- C8 witness: with a concrete oracle the persisted update is the single
assistant message built from the oracle's answer on the prefixed input. -/
theorem C8_system_message_not_persisted_witness :
    chatbot (fun _ => ⟨"hi", []⟩) ⟨[]⟩ = [Msg.assistant "hi" []] :=
  (C8_system_message_not_persisted (fun _ => ⟨"hi", []⟩) ⟨[]⟩).1

/-- C9: one iteration of the interactive loop recognizes exactly the three
reserved commands — the quit aliases 'quit'/'exit'/'q', 'clear' and 'history'
(matched on the stripped, lowercased line): 'clear' resets the conversation
to the empty sequence, 'history' right after 'clear' displays zero turns, an
empty line is ignored leaving the state unchanged, and every other non-empty
line is appended as a new user turn (followed by the streamed responses). -/
theorem C9_command_surface (respond : List Msg → List Msg) (conversation : List Msg)
    (raw : String) :
    (pyLower (pyStrip raw) = "quit" ∨ pyLower (pyStrip raw) = "exit" ∨
        pyLower (pyStrip raw) = "q" →
      run_interactive_step respond conversation raw = (LoopAction.quit, conversation)) ∧
    (run_interactive_step respond conversation "clear" = (LoopAction.cleared, [])) ∧
    (run_interactive_step respond
        (run_interactive_step respond conversation "clear").2 "history"
      = (LoopAction.displayedHistory 0, [])) ∧
    (pyStrip raw = "" →
      run_interactive_step respond conversation raw = (LoopAction.ignored, conversation)) ∧
    (pyStrip raw ≠ "" →
      pyLower (pyStrip raw) ≠ "quit" → pyLower (pyStrip raw) ≠ "exit" →
      pyLower (pyStrip raw) ≠ "q" →
      pyLower (pyStrip raw) ≠ "clear" → pyLower (pyStrip raw) ≠ "history" →
      run_interactive_step respond conversation raw
        = (LoopAction.dispatched,
            (conversation ++ [Msg.user (pyStrip raw)])
              ++ respond (conversation ++ [Msg.user (pyStrip raw)]))) := by
  refine ⟨?_, rfl, rfl, ?_, ?_⟩
  · intro h
    simp only [run_interactive_step]
    rw [if_pos h]
  · intro h
    simp only [run_interactive_step]
    rw [h]
    rfl
  · intro h0 h1 h2 h3 h4 h5
    simp only [run_interactive_step]
    have hor : ¬(pyLower (pyStrip raw) = "quit" ∨ pyLower (pyStrip raw) = "exit" ∨
        pyLower (pyStrip raw) = "q") := by
      rintro (hc | hc | hc)
      · exact h1 hc
      · exact h2 hc
      · exact h3 hc
    rw [if_neg hor, if_neg h4, if_neg h5, if_neg h0]

/-- C9 witness: the quit alias on a concrete state. -/
theorem C9_command_surface_witness :
    run_interactive_step (fun _ => []) [] "quit" = (LoopAction.quit, []) :=
  (C9_command_surface (fun _ => []) [] "quit").1 (Or.inl rfl)

end ChatbotWithTools
